import Mathlib

/-!
Verification of the battle lifecycle controller of the code-battle web
front-end.  The definitions below are shallow embeddings of the store
operations and derived view logic in src/src/pages/BattleArena.tsx and of
the schema provisioning in the supabase client module (src/unnamed/part_000).

Modelling conventions: timestamps are integer epoch milliseconds (Int),
battle statuses are an inductive type, and the remote store is a list of
rows with PostgREST conditional-update semantics: an update patches every
row matching its filters, and the accompanying single-row select
(`.single()`) yields a row exactly when exactly one row matched, otherwise
the operation surfaces an error (modelled as `none`).
-/

namespace Arena

/-- Battle status strings used by BattleArena.tsx
(`waiting`, `in_progress`, `completed`). -/
inductive BattleStatus
  | waiting
  | in_progress
  | completed
  deriving DecidableEq

/-- A row of the `battles` table, restricted to the fields BattleArena.tsx
reads or writes for the lifecycle logic. -/
structure Battle where
  id : String
  creator_id : String
  defender_id : Option String
  status : BattleStatus
  winner_id : Option String
  duration : Nat
  start_time : Option Int
  end_time : Option Int
  deriving DecidableEq

/-- A row of the solutions table (fields per the `Solution` type and the
`submissions` DDL in the supabase module; `id` is a generated key, modelled
as the row count at insertion time). -/
structure Solution where
  id : Nat
  battle_id : String
  user_id : String
  code : String
  submitted_at : Int
  deriving DecidableEq

/-- The patch of `joinBattleMutation`: sets `defender_id`, `status`
and `start_time` (BattleArena.tsx lines 242-246). -/
def joinPatch (userId : String) (t : Int) (b : Battle) : Battle :=
  { b with defender_id := some userId
         , status := BattleStatus.in_progress
         , start_time := some t }

/-- The patch of `endBattleMutation`: sets `status`, `end_time`
and `winner_id` (BattleArena.tsx lines 276-280). -/
def endPatch (winnerId : String) (t : Int) (b : Battle) : Battle :=
  { b with status := BattleStatus.completed
         , end_time := some t
         , winner_id := some winnerId }

/-- Row filter of `joinBattleMutation`: `.eq( id , battleId)` together with
`.eq( status , waiting)` (BattleArena.tsx lines 247-248). -/
def joinFilter (battleId : String) (b : Battle) : Bool :=
  decide (b.id = battleId ∧ b.status = BattleStatus.waiting)

/-- Row filter of `endBattleMutation`: only `.eq( id , battleId)`; the
mutation has no status condition (BattleArena.tsx line 281). -/
def endFilter (battleId : String) (b : Battle) : Bool :=
  decide (b.id = battleId)

/-- The conditional update of `joinBattleMutation`: patch the rows matching
the filter; the single-row select succeeds exactly when one row matched. -/
def updateBattleJoin (store : List Battle) (battleId userId : String) (t : Int) :
    List Battle × Option Battle :=
  (store.map fun b => if joinFilter battleId b then joinPatch userId t b else b,
   match store.filter (joinFilter battleId) with
   | [m] => some (joinPatch userId t m)
   | _ => none)

/-- The update of `endBattleMutation`: patch the rows matching the id-only
filter; the single-row select succeeds exactly when one row matched. -/
def updateBattleEnd (store : List Battle) (battleId winnerId : String) (t : Int) :
    List Battle × Option Battle :=
  (store.map fun b => if endFilter battleId b then endPatch winnerId t b else b,
   match store.filter (endFilter battleId) with
   | [m] => some (endPatch winnerId t m)
   | _ => none)

/-- The insert of `submitSolutionMutation` (BattleArena.tsx lines 202-213):
the solutions table (per the `submissions` DDL in the supabase module) has a
generated primary key and no uniqueness constraint on (battle_id, user_id),
so an insert unconditionally appends a fresh row and returns it. -/
def insertSolution (store : List Solution) (battleId userId code : String) (t : Int) :
    List Solution × Solution :=
  let row : Solution :=
    { id := store.length, battle_id := battleId, user_id := userId
    , code := code, submitted_at := t }
  (store ++ [row], row)

/-- Row filter of the solution query: `.eq( battle_id , battleId)` and
`.eq( user_id , userId)` (BattleArena.tsx lines 178-179). -/
def solutionFilter (battleId userId : String) (s : Solution) : Bool :=
  decide (s.battle_id = battleId ∧ s.user_id = userId)

/-- The solution fetch (BattleArena.tsx lines 175-191): a `.single()` select
yields the row when exactly one row matches, and `null` otherwise (the
PGRST116 zero-or-many case is treated as absence). -/
def fetchSolution (store : List Solution) (battleId userId : String) : Option Solution :=
  match store.filter (solutionFilter battleId userId) with
  | [s] => some s
  | _ => none

/-- JavaScript `String.prototype.trim`: strips leading and trailing
whitespace characters. -/
def jsTrim (s : String) : String :=
  String.mk (((s.data.dropWhile Char.isWhitespace).reverse.dropWhile
    Char.isWhitespace).reverse)

/-- `handleSubmitSolution` (BattleArena.tsx lines 454-466): an empty-trimmed
code text returns before invoking the insert; otherwise the insert runs.
The Bool records whether the insert mutation was invoked. -/
def handleSubmitSolution (store : List Solution) (battleId userId code : String) (t : Int) :
    List Solution × Bool :=
  if jsTrim code = "" then (store, false)
  else ((insertSolution store battleId userId code t).1, true)

/-- `isCreator` (BattleArena.tsx line 516): a strict comparison of the
optional current user id with the creator id; false when signed out. -/
def isCreator (b : Battle) (user : Option String) : Bool :=
  match user with
  | some u => decide (u = b.creator_id)
  | none => false

/-- `isDefender` (BattleArena.tsx line 517): a strict comparison of the
optional current user id with the nullable defender id; false when signed
out or when no defender exists. -/
def isDefender (b : Battle) (user : Option String) : Bool :=
  match user, b.defender_id with
  | some u, some d => decide (u = d)
  | _, _ => false

/-- `hasJoined` (BattleArena.tsx line 518). -/
def hasJoined (b : Battle) (user : Option String) : Bool :=
  isCreator b user || isDefender b user

/-- `isBattleActive` state, synchronised from the battle snapshot by the
effect at BattleArena.tsx line 340. -/
def isBattleActive (b : Battle) : Bool :=
  decide (b.status = BattleStatus.in_progress)

/-- `canJoin` (BattleArena.tsx line 519). -/
def canJoin (b : Battle) (user : Option String) : Bool :=
  !hasJoined b user && decide (b.status = BattleStatus.waiting)

/-- `canSubmit` (BattleArena.tsx line 520). -/
def canSubmit (b : Battle) (user : Option String) (sol : Option Solution) : Bool :=
  hasJoined b user && isBattleActive b && sol.isNone

/-- `canEnd` (BattleArena.tsx line 521); the truthiness of the solution
object is modelled as `!sol.isNone`. -/
def canEnd (b : Battle) (user : Option String) (sol : Option Solution) : Bool :=
  hasJoined b user && isBattleActive b && !sol.isNone

/-- `Math.ceil(timeLeft / 1000)` for a positive integer number of
milliseconds (BattleArena.tsx line 406). -/
def ceilSeconds (timeLeft : Int) : Nat :=
  (timeLeft.toNat + 999) / 1000

/-- `determineWinner` (BattleArena.tsx lines 411-420): with no solution the
end transition is invoked with the opponent (`defender_id` when the viewer
is the creator, else `creator_id`), skipped when that opponent id is null;
with a solution it is invoked with the viewer. The result is the winner id
passed to `endBattleMutation`, `none` when no call is made. -/
def determineWinner (b : Battle) (userId : String) (sol : Option Solution) : Option String :=
  match sol with
  | none => if b.creator_id = userId then b.defender_id else some b.creator_id
  | some _ => some userId

/-- One execution of `calculateTimeRemaining` (BattleArena.tsx lines
397-424): returns the value written to `timeRemaining` together with the
winner id passed to `endBattleMutation` when the auto-resolution fires
(`none` in the second component when no end attempt happens); returns
`none` when `start_time` is absent (the early return). -/
def calculateTimeRemaining (b : Battle) (user : Option String) (sol : Option Solution)
    (now : Int) : Option (Nat × Option String) :=
  match b.start_time with
  | none => none
  | some startTime =>
    let endTime := startTime + (b.duration : Int) * 60 * 1000
    let timeLeft := endTime - now
    if 0 < timeLeft then
      some (ceilSeconds timeLeft, none)
    else
      some (0, match b.winner_id, user with
               | none, some u => determineWinner b u sol
               | _, _ => none)

/-- The end attempt made by one countdown tick: the effect at BattleArena.tsx
line 396 installs the interval only when the snapshot has a nonzero duration,
a start time and `in_progress` status; each tick then runs
`calculateTimeRemaining` against the snapshot captured by the effect. -/
def tickEndCall (b : Battle) (user : Option String) (sol : Option Solution) (now : Int) :
    Option String :=
  if b.duration ≠ 0 ∧ b.status = BattleStatus.in_progress then
    match calculateTimeRemaining b user sol now with
    | some (_, e) => e
    | none => none
  else none

/-- Whether a tick at wall-clock `now` triggers an auto-resolution
end attempt. -/
def tickTriggersEnd (b : Battle) (user : Option String) (sol : Option Solution)
    (now : Int) : Bool :=
  (tickEndCall b user sol now).isSome

/-- Number of auto-resolution end attempts over a session's tick times,
with the battle/user/solution snapshot fixed (the effect closure captures
them; they change only when the effect re-runs with fresh data). -/
def endAttemptCount (b : Battle) (user : Option String) (sol : Option Solution)
    (ticks : List Int) : Nat :=
  (ticks.filter (tickTriggersEnd b user sol)).length

/-- The loser derivation in the completed-battle effect (BattleArena.tsx
lines 347-390): runs only for a completed battle with a recorded winner;
the loser id is the defender when the winner is the creator, else the
creator; a null derived id resolves no loser. -/
def resolveLoserId (b : Battle) : Option String :=
  if b.status = BattleStatus.completed then
    match b.winner_id with
    | some w => if b.creator_id = w then b.defender_id else some b.creator_id
    | none => none
  else none

/-! Concrete rows used by counterexamples and witnesses. -/

/-- A completed battle: alice created, bob defended, alice won. -/
def exCompleted : Battle :=
  { id := "b1", creator_id := "alice", defender_id := some "bob"
  , status := BattleStatus.completed, winner_id := some "alice"
  , duration := 10, start_time := some 0, end_time := some 600000 }

/-- A completed battle won by the defender bob. -/
def exCompletedBobWon : Battle :=
  { id := "b4", creator_id := "alice", defender_id := some "bob"
  , status := BattleStatus.completed, winner_id := some "bob"
  , duration := 10, start_time := some 0, end_time := some 600000 }

/-- A waiting battle created by alice, not yet joined. -/
def exWaiting : Battle :=
  { id := "b2", creator_id := "alice", defender_id := none
  , status := BattleStatus.waiting, winner_id := none
  , duration := 10, start_time := none, end_time := none }

/-- An in-progress ten-minute battle started at epoch 0: alice vs bob. -/
def exActive : Battle :=
  { id := "b3", creator_id := "alice", defender_id := some "bob"
  , status := BattleStatus.in_progress, winner_id := none
  , duration := 10, start_time := some 0, end_time := none }

def aliceId : String := "alice"

def bobId : String := "bob"

def caraId : String := "cara"

def exBattleId : String := "b9"

def exUserId : String := "u1"

def codeA : String := "return 1;"

def codeB : String := "return 2;"

/-- A pre-existing solution row for the (exBattleId, exUserId) pair. -/
def exSolution : Solution :=
  { id := 0, battle_id := "b9", user_id := "u1", code := "return 1;", submitted_at := 1 }

def emptyStore : List Solution := []

def blankCode : String := "   "

/-- Claim C1 counterexample: `endBattleMutation` filters only by battle id,
so calling end on an already completed battle (alice already recorded as
winner) is not rejected: the single-row select succeeds and the stored
record is mutated (winner overwritten to bob). -/
theorem end_on_completed_battle_mutates :
    (updateBattleEnd [exCompleted] exCompleted.id bobId 700000).2.isSome = true ∧
    (updateBattleEnd [exCompleted] exCompleted.id bobId 700000).1 ≠ [exCompleted] := by
  exact ⟨by decide, by decide⟩

/-- Claim C1 (amended): the end update is scoped by battle id only, with no
condition on the prior status; for a store holding the battle it always
succeeds and rewrites status, winner and end timestamp, so a completed
battle can be mutated again. -/
theorem end_update_applies_regardless_of_status (b : Battle) (w : String) (t : Int) :
    (updateBattleEnd [b] b.id w t).2 = some (endPatch w t b) ∧
    (updateBattleEnd [b] b.id w t).1 = [endPatch w t b] ∧
    (endPatch w t b).status = BattleStatus.completed ∧
    (endPatch w t b).winner_id = some w := by
  refine ⟨?_, ?_, rfl, rfl⟩ <;>
    simp [updateBattleEnd, endFilter, List.filter]

/-- Claim C2: the join update is scoped by both id and prior status
`waiting`; serialising two join attempts by different users at the store in
either order (the users are symmetric in the statement), the first
conditional update succeeds — setting the defender, the `in_progress`
status and the start timestamp — and the second matches no row, so its
single-row select is rejected (Conflict) and the store is unchanged: the
battle ends with exactly one defender. -/
theorem join_race_exactly_one (b : Battle) (u1 u2 : String) (t1 t2 : Int)
    (hw : b.status = BattleStatus.waiting) (hu : u1 ≠ u2) :
    (updateBattleJoin [b] b.id u1 t1).2 = some (joinPatch u1 t1 b) ∧
    (joinPatch u1 t1 b).defender_id = some u1 ∧
    (joinPatch u1 t1 b).status = BattleStatus.in_progress ∧
    (joinPatch u1 t1 b).start_time = some t1 ∧
    (updateBattleJoin (updateBattleJoin [b] b.id u1 t1).1 b.id u2 t2).2 = none ∧
    (updateBattleJoin (updateBattleJoin [b] b.id u1 t1).1 b.id u2 t2).1 =
      [joinPatch u1 t1 b] := by
  refine ⟨?_, rfl, rfl, rfl, ?_, ?_⟩ <;>
    simp [updateBattleJoin, joinFilter, joinPatch, hw, List.filter]

/-- Witness for C2: bob and cara race to join alice's waiting battle; bob's
update lands first and succeeds, cara's is rejected. -/
theorem join_race_witness :
    exWaiting.status = BattleStatus.waiting ∧ bobId ≠ caraId ∧
    (updateBattleJoin [exWaiting] exWaiting.id bobId 100).2 =
      some (joinPatch bobId 100 exWaiting) ∧
    (updateBattleJoin (updateBattleJoin [exWaiting] exWaiting.id bobId 100).1
      exWaiting.id caraId 200).2 = none :=
  ⟨rfl, by decide,
   (join_race_exactly_one exWaiting bobId caraId 100 200 rfl (by decide)).1,
   (join_race_exactly_one exWaiting bobId caraId 100 200 rfl (by decide)).2.2.2.2.1⟩

/-- Helper: `calculateTimeRemaining` while time remains positive. -/
theorem calcTR_pos (b : Battle) (user : Option String) (sol : Option Solution)
    (now T : Int) (hstart : b.start_time = some T)
    (h : 0 < T + (b.duration : Int) * 60 * 1000 - now) :
    calculateTimeRemaining b user sol now =
      some (ceilSeconds (T + (b.duration : Int) * 60 * 1000 - now), none) := by
  simp [calculateTimeRemaining, hstart, h]

/-- Helper: `calculateTimeRemaining` once the deadline has passed. -/
theorem calcTR_nonpos (b : Battle) (user : Option String) (sol : Option Solution)
    (now T : Int) (hstart : b.start_time = some T)
    (h : T + (b.duration : Int) * 60 * 1000 - now ≤ 0) :
    calculateTimeRemaining b user sol now =
      some (0, match b.winner_id, user with
               | none, some u => determineWinner b u sol
               | _, _ => none) := by
  have hneg : ¬ (0 < T + (b.duration : Int) * 60 * 1000 - now) := by omega
  simp [calculateTimeRemaining, hstart, hneg]

/-- Claim C3: when a tick sees a non-positive remaining time on an
in-progress battle with no recorded winner, a participant viewer with no
solution triggers the end transition with the opposite participant as
winner, and a viewer with a solution triggers it with the viewer as
winner. -/
theorem timeout_resolves_opponent_or_self (b : Battle) (u d : String)
    (sol : Option Solution) (T now : Int)
    (hstat : b.status = BattleStatus.in_progress) (hdur : b.duration ≠ 0)
    (hstart : b.start_time = some T) (hwin : b.winner_id = none)
    (hdef : b.defender_id = some d) (hdc : d ≠ b.creator_id)
    (hpart : u = b.creator_id ∨ u = d)
    (hpast : T + (b.duration : Int) * 60 * 1000 ≤ now) :
    (sol = none → ∃ w, tickEndCall b (some u) sol now = some w ∧ w ≠ u ∧
      (w = b.creator_id ∨ w = d)) ∧
    (sol ≠ none → tickEndCall b (some u) sol now = some u) := by
  have hcall : tickEndCall b (some u) sol now = determineWinner b u sol := by
    unfold tickEndCall
    rw [if_pos ⟨hdur, hstat⟩,
        calcTR_nonpos b (some u) sol now T hstart (by omega), hwin]
  constructor
  · intro hsol
    subst hsol
    rcases hpart with h | h
    · refine ⟨d, ?_, ?_, Or.inr rfl⟩
      · rw [hcall]
        unfold determineWinner
        rw [if_pos h.symm, hdef]
      · intro he
        exact hdc (by rw [he, h])
    · refine ⟨b.creator_id, ?_, ?_, Or.inl rfl⟩
      · rw [hcall]
        unfold determineWinner
        rw [if_neg (fun hc => hdc ((hc.trans h).symm))]
      · intro he
        exact hdc ((he.trans h).symm)
  · intro hsol
    rcases sol with _ | s
    · exact absurd rfl hsol
    · rw [hcall]
      rfl

/-- Witness for C3: the spec's timeout scenario — alice created a rated
ten-minute battle started at T = 0, bob joined and never submitted; a tick
on bob's client at T + 601 s resolves the winner as alice, bob's opponent. -/
theorem timeout_resolution_witness :
    (∃ w, tickEndCall exActive (some bobId) none 601000 = some w ∧ w ≠ bobId ∧
      (w = exActive.creator_id ∨ w = bobId)) ∧
    tickEndCall exActive (some bobId) none 601000 = some aliceId :=
  ⟨(timeout_resolves_opponent_or_self exActive bobId bobId none 0 601000 rfl
      (by decide) rfl rfl rfl (by decide) (Or.inr rfl) (by decide)).1 rfl,
   by decide⟩

/-- Claim C4 counterexample: with the battle snapshot unchanged (winner not
yet recorded locally), the auto-resolution end attempt fires on both of two
consecutive ticks past the deadline — two attempts in one viewer session,
not exactly one. -/
theorem auto_resolution_fires_repeatedly :
    endAttemptCount exActive (some bobId) none [600001, 601001] = 2 ∧
    endAttemptCount exActive (some bobId) none [600001, 601001] ≠ 1 := by
  exact ⟨by decide, by decide⟩

/-- Claim C4 (amended): the tick handler has no once-per-session guard: for
a fixed snapshot of an in-progress battle with no recorded winner where the
winner determination yields a callee, every tick at or past the deadline
triggers an end attempt, so the attempt repeats each second until a
refreshed snapshot records a winner. -/
theorem tick_fires_every_past_deadline_tick (b : Battle) (u w : String)
    (sol : Option Solution) (T : Int)
    (hstat : b.status = BattleStatus.in_progress) (hdur : b.duration ≠ 0)
    (hstart : b.start_time = some T) (hwin : b.winner_id = none)
    (hdw : determineWinner b u sol = some w) :
    ∀ now : Int, T + (b.duration : Int) * 60 * 1000 ≤ now →
      tickTriggersEnd b (some u) sol now = true := by
  intro now hpast
  unfold tickTriggersEnd tickEndCall
  rw [if_pos ⟨hdur, hstat⟩,
      calcTR_nonpos b (some u) sol now T hstart (by omega), hwin]
  simp [hdw]

/-- Witness for C4 (amended): two consecutive ticks of the same session both
trigger the end attempt. -/
theorem tick_fires_witness :
    tickTriggersEnd exActive (some bobId) none 600001 = true ∧
    tickTriggersEnd exActive (some bobId) none 601001 = true :=
  ⟨tick_fires_every_past_deadline_tick exActive bobId aliceId none 0 rfl
      (by decide) rfl rfl (by decide) 600001 (by decide),
   tick_fires_every_past_deadline_tick exActive bobId aliceId none 0 rfl
      (by decide) rfl rfl (by decide) 601001 (by decide)⟩

/-- Helper: the ceiling division by 1000 brackets the exact remaining
milliseconds. -/
theorem ceilSeconds_bounds (t : Int) (ht : 0 < t) :
    ((ceilSeconds t : Int) - 1) * 1000 < t ∧ t ≤ (ceilSeconds t : Int) * 1000 := by
  unfold ceilSeconds
  have h0 : (t.toNat : Int) = t := Int.toNat_of_nonneg (le_of_lt ht)
  have h1 := Nat.div_add_mod (t.toNat + 999) 1000
  have h2 : (t.toNat + 999) % 1000 < 1000 := Nat.mod_lt _ (by norm_num)
  omega

/-- Claim C5: countdown arithmetic — while positive, the reported seconds
are the remaining milliseconds rounded up to a whole second (bracketed
strictly below by `(r-1)` s and weakly above by `r` s); five seconds before
the deadline the display reads 5, and one millisecond past it reads 0. -/
theorem countdown_arithmetic (b : Battle) (user : Option String)
    (sol : Option Solution) (T : Int) (D : Nat)
    (hstart : b.start_time = some T) (hdur : b.duration = D) :
    (∀ now r e, calculateTimeRemaining b user sol now = some (r, e) →
        0 < T + (D : Int) * 60 * 1000 - now →
        ((r : Int) - 1) * 1000 < T + (D : Int) * 60 * 1000 - now ∧
        T + (D : Int) * 60 * 1000 - now ≤ (r : Int) * 1000) ∧
    (calculateTimeRemaining b user sol (T + (D : Int) * 60 * 1000 - 5000)).map
      Prod.fst = some 5 ∧
    (calculateTimeRemaining b user sol (T + (D : Int) * 60 * 1000 + 1)).map
      Prod.fst = some 0 := by
  subst hdur
  refine ⟨?_, ?_, ?_⟩
  · intro now r e heq hpos
    rw [calcTR_pos b user sol now T hstart hpos] at heq
    simp only [Option.some.injEq, Prod.mk.injEq] at heq
    obtain ⟨h1, -⟩ := heq
    subst h1
    exact ceilSeconds_bounds _ hpos
  · have e5 : T + (b.duration : Int) * 60 * 1000 -
        (T + (b.duration : Int) * 60 * 1000 - 5000) = 5000 := by ring
    rw [calcTR_pos b user sol _ T hstart (by omega), e5]
    decide
  · rw [calcTR_nonpos b user sol _ T hstart (by omega)]
    rfl

/-- Witness for C5: the ten-minute battle started at 0 reports 5 at
595 000 ms and 0 at 600 001 ms, and 5 s round-up brackets the 5 000 ms
remainder. -/
theorem countdown_witness :
    (calculateTimeRemaining exActive none none
        ((0 : Int) + (10 : Int) * 60 * 1000 - 5000)).map Prod.fst = some 5 ∧
    (calculateTimeRemaining exActive none none
        ((0 : Int) + (10 : Int) * 60 * 1000 + 1)).map Prod.fst = some 0 ∧
    (((5 : Nat) : Int) - 1) * 1000 < (0 : Int) + (10 : Int) * 60 * 1000 - 595000 ∧
    (0 : Int) + (10 : Int) * 60 * 1000 - 595000 ≤ ((5 : Nat) : Int) * 1000 := by
  have h := countdown_arithmetic exActive none none 0 10 rfl rfl
  have h1 := h.1 595000 5 none (by decide) (by norm_num)
  exact ⟨h.2.1, h.2.2, h1.1, h1.2⟩

/-- Claim C6 counterexample: the solutions schema carries no uniqueness
constraint on (battle_id, user_id), so a second insert for the same pair is
not rejected: after two submits the store holds two rows for the pair (the
first row's code is untouched, but the pair is duplicated rather than the
second attempt being refused). -/
theorem duplicate_submission_not_rejected :
    ((insertSolution (insertSolution emptyStore exBattleId exUserId codeA 1).1
        exBattleId exUserId codeB 2).1.filter
          (solutionFilter exBattleId exUserId)).length = 2 ∧
    (insertSolution (insertSolution emptyStore exBattleId exUserId codeA 1).1
        exBattleId exUserId codeB 2).1.map Solution.code = [codeA, codeB] := by
  exact ⟨by decide, by decide⟩

/-- Claim C6 (amended): an insert never modifies existing rows — so a first
submission's stored code survives any later submit — but nothing rejects a
duplicate: each insert for a (battle, user) pair grows that pair's row
count by one; only the client-side `canSubmit` gate stands between a user
and a duplicate row. -/
theorem insertSolution_no_uniqueness (store : List Solution)
    (battleId userId code : String) (t : Int) (s : Solution) (hs : s ∈ store) :
    s ∈ (insertSolution store battleId userId code t).1 ∧
    ((insertSolution store battleId userId code t).1.filter
        (solutionFilter battleId userId)).length =
      (store.filter (solutionFilter battleId userId)).length + 1 := by
  constructor
  · simp only [insertSolution, List.mem_append]
    exact Or.inl hs
  · simp [insertSolution, List.filter_append, solutionFilter]

/-- Witness for C6 (amended): re-submitting for a pair that already has a
row keeps the old row and adds one more matching row. -/
theorem duplicate_submission_witness :
    exSolution ∈ (insertSolution [exSolution] exBattleId exUserId codeB 2).1 ∧
    ((insertSolution [exSolution] exBattleId exUserId codeB 2).1.filter
        (solutionFilter exBattleId exUserId)).length =
      (([exSolution] : List Solution).filter
        (solutionFilter exBattleId exUserId)).length + 1 :=
  insertSolution_no_uniqueness [exSolution] exBattleId exUserId codeB 2 exSolution
    (by decide)

/-- Helper: the code's `hasJoined` flag holds exactly when the current user
is signed in and is the creator or the defender. -/
theorem hasJoined_iff (b : Battle) (user : Option String) :
    hasJoined b user = true ↔
      ∃ u, user = some u ∧ (u = b.creator_id ∨ b.defender_id = some u) := by
  cases user with
  | none => simp [hasJoined, isCreator, isDefender]
  | some u =>
    cases hd : b.defender_id with
    | none =>
      simp [hasJoined, isCreator, isDefender, hd]
    | some d =>
      simp only [hasJoined, isCreator, isDefender, hd, Bool.or_eq_true,
        decide_eq_true_eq, Option.some.injEq]
      constructor
      · rintro (h | h)
        · exact ⟨u, rfl, Or.inl h⟩
        · exact ⟨u, rfl, Or.inr h.symm⟩
      · rintro ⟨v, hv, h | h⟩
        · rw [← hv] at h
          exact Or.inl h
        · rw [← hv] at h
          exact Or.inr h.symm

/-- Claim C7: the derived role predicates agree with the spec's formulas:
`canJoin` holds exactly for a signed-in non-participant of a waiting
battle, `canSubmit` for a participant of an in-progress battle with no
solution yet, and `canEnd` for a participant of an in-progress battle with
a solution. -/
theorem role_predicates (b : Battle) (user : Option String) (sol : Option Solution) :
    (canJoin b user = true ↔
      ¬ (∃ u, user = some u ∧ (u = b.creator_id ∨ b.defender_id = some u)) ∧
        b.status = BattleStatus.waiting) ∧
    (canSubmit b user sol = true ↔
      (∃ u, user = some u ∧ (u = b.creator_id ∨ b.defender_id = some u)) ∧
        b.status = BattleStatus.in_progress ∧ sol = none) ∧
    (canEnd b user sol = true ↔
      (∃ u, user = some u ∧ (u = b.creator_id ∨ b.defender_id = some u)) ∧
        b.status = BattleStatus.in_progress ∧ sol ≠ none) := by
  refine ⟨?_, ?_, ?_⟩
  · rw [canJoin, Bool.and_eq_true, Bool.not_eq_true', ← Bool.not_eq_true,
      hasJoined_iff, decide_eq_true_eq]
  · rw [canSubmit, Bool.and_eq_true, Bool.and_eq_true, hasJoined_iff,
      isBattleActive, decide_eq_true_eq, Option.isNone_iff_eq_none, and_assoc]
  · rw [canEnd, Bool.and_eq_true, Bool.and_eq_true, hasJoined_iff,
      isBattleActive, decide_eq_true_eq, Bool.not_eq_true',
      Option.isNone_eq_false_iff, Option.isSome_iff_ne_none, and_assoc]

/-- Claim C8: a submission whose code trims to the empty string is rejected
before any remote call: the handler returns without invoking the insert and
the store is unchanged. -/
theorem empty_submission_rejected (store : List Solution)
    (battleId userId code : String) (t : Int) (h : jsTrim code = "") :
    handleSubmitSolution store battleId userId code t = (store, false) := by
  simp [handleSubmitSolution, h]

/-- Witness for C8: a whitespace-only submission leaves the store unchanged
and never invokes the insert. -/
theorem empty_submission_witness :
    jsTrim blankCode = "" ∧
    handleSubmitSolution emptyStore exBattleId exUserId blankCode 3 =
      (emptyStore, false) :=
  ⟨by decide,
   empty_submission_rejected emptyStore exBattleId exUserId blankCode 3 (by decide)⟩

/-- Claim C9: round-trip — submitting code `s` for a pair with no prior
row, then fetching the solution for that same pair, returns exactly `s`
unchanged. -/
theorem submit_fetch_roundtrip (store : List Solution)
    (battleId userId code : String) (t : Int)
    (h : store.filter (solutionFilter battleId userId) = []) :
    (fetchSolution (insertSolution store battleId userId code t).1 battleId
      userId).map Solution.code = some code := by
  simp [fetchSolution, insertSolution, List.filter_append, h, solutionFilter]

/-- Witness for C9: submitting into an empty store and fetching returns the
submitted code text. -/
theorem roundtrip_witness :
    emptyStore.filter (solutionFilter exBattleId exUserId) = [] ∧
    (fetchSolution (insertSolution emptyStore exBattleId exUserId codeA 1).1
        exBattleId exUserId).map Solution.code = some codeA :=
  ⟨rfl, submit_fetch_roundtrip emptyStore exBattleId exUserId codeA 1 rfl⟩

/-- Claim C10: for a completed battle with a recorded winner, the displayed
loser id is the other participant — the defender when the winner is the
creator (hence nobody when the defender is null), and the creator
otherwise. -/
theorem loser_is_other_participant (b : Battle) (w : String)
    (hc : b.status = BattleStatus.completed) (hw : b.winner_id = some w) :
    (w = b.creator_id → resolveLoserId b = b.defender_id) ∧
    (w ≠ b.creator_id → resolveLoserId b = some b.creator_id) := by
  have h1 : resolveLoserId b =
      if b.creator_id = w then b.defender_id else some b.creator_id := by
    simp [resolveLoserId, hc, hw]
  constructor
  · intro he
    rw [h1, if_pos he.symm]
  · intro he
    rw [h1, if_neg (fun hcw => he hcw.symm)]

/-- Witness for C10: with alice the winning creator the loser is the
defender; with bob the winning defender the loser is the creator. -/
theorem loser_witness :
    resolveLoserId exCompleted = exCompleted.defender_id ∧
    resolveLoserId exCompletedBobWon = some exCompletedBobWon.creator_id :=
  ⟨(loser_is_other_participant exCompleted aliceId rfl rfl).1 rfl,
   (loser_is_other_participant exCompletedBobWon bobId rfl rfl).2 (by decide)⟩

end Arena
